import Mathlib

/-!
Verification of the Task Timer CLI/GUI core: a shallow embedding of the
task store (`task_timer.py`) and the countdown timers (`task_timer.py`
`run_timer`, `task_timer_gui.py` `TaskTimerApp.run_timer`), with theorems
settling the specification claims about them.

Modelling conventions:
* Python task dicts become the `Task` structure; the `completed_at` key,
  present only once a task completes, becomes an `Option Nat`.
* Wall-clock instants are integers (seconds); the float arithmetic of the
  source is exact at the integer instants the claims speak about.
* Persistence (`save_tasks`) is modelled by a `saved` flag on results;
  sound notification by a `notified` flag (the source attempts the sound
  exactly when the countdown completes and `silent` is false).
-/

namespace TaskTimer

/-- One task record, as stored in the JSON list of `task_timer.py`:
`{id, name, duration, completed, created_at, tags}` plus the
`completed_at` key that `start_timer` adds on completion. -/
structure Task where
  id : Nat
  name : String
  duration : Int
  completed : Bool
  createdAt : Nat
  completedAt : Option Nat
  tags : List String
deriving Repr, DecidableEq

/-- Embedding of `add_task` (src/task_timer.py lines 177-205): resolves the
duration against the config default when absent (`duration is None`),
replaces a falsy `tags` argument by `[]`, and appends a record with
`id = len(tasks) + 1`.  No validation is performed on `name` or on the
duration. -/
def add_task (tasks : List Task) (name : String) (duration : Option Int)
    (tags : Option (List String)) (default_duration : Int) (now : Nat) : List Task :=
  let dur := duration.getD default_duration
  let tgs := match tags with
    | none => []
    | some l => l
  tasks ++ [{ id := tasks.length + 1, name := name, duration := dur,
              completed := false, createdAt := now, completedAt := none, tags := tgs }]

/-- Embedding of the task lookup `next((t for t in tasks if t["id"] == task_id), None)`
used by `start_timer` (src/task_timer.py line 343). -/
def find_task (tasks : List Task) (task_id : Nat) : Option Task :=
  tasks.find? (fun t => t.id == task_id)

/-- Embedding of `delete_task` (src/task_timer.py lines 386-397): if no task
has the id the store is untouched (`False` = the NotFound report);
otherwise every record with that id is filtered out and the store saved. -/
def delete_task (tasks : List Task) (task_id : Nat) : List Task × Bool :=
  if tasks.any (fun t => t.id == task_id) then
    (tasks.filter (fun t => t.id != task_id), true)
  else
    (tasks, false)

/-- Embedding of the in-place mutation in `start_timer` (src/task_timer.py
lines 364-366): the first record with the given id (the one `next` found)
gets `completed = True` and a fresh `completed_at`; later records are
untouched. -/
def complete_first : List Task → Nat → Nat → List Task
  | [], _, _ => []
  | t :: ts, task_id, now =>
    if t.id == task_id then
      { t with completed := true, completedAt := some now } :: ts
    else
      t :: complete_first ts task_id now

/-- Observable outcome of one `start_timer` call (src/task_timer.py lines
332-384): the resulting store, whether `save_tasks` ran, whether the work
countdown was entered at all, whether the completion sound was attempted,
and whether a break countdown ran. -/
structure StartResult where
  tasks : List Task
  saved : Bool
  workTimerRan : Bool
  notified : Bool
  breakRan : Bool
deriving Repr, DecidableEq

/-- Embedding of `start_timer` (src/task_timer.py lines 332-384).
`workCompleted` is the boolean returned by the work `run_timer` call
(`True` when the countdown ran out, `False` on KeyboardInterrupt);
`acceptBreak` is whether the break prompt answer differed from `n`.
The source checks only that the task exists — the `completed` flag is
never consulted — and on a completed countdown mutates the found record,
saves, and attempts the notification sound unless `silent`. -/
def start_timer (tasks : List Task) (task_id : Nat) (break_duration : Option Int)
    (silent : Bool) (workCompleted : Bool) (acceptBreak : Bool) (now : Nat) : StartResult :=
  match find_task tasks task_id with
  | none => ⟨tasks, false, false, false, false⟩
  | some _ =>
    if workCompleted then
      let tasks' := complete_first tasks task_id now
      let breakRan := match break_duration with
        | none => false
        | some _ => acceptBreak
      ⟨tasks', true, true, !silent, breakRan⟩
    else
      ⟨tasks, false, true, false, false⟩

/-- One `add` invocation as issued by the CLI: the arguments `add_task`
receives, together with the ambient config default and clock reading. -/
structure AddOp where
  name : String
  duration : Option Int
  tags : Option (List String)
  dflt : Int
  now : Nat

/-- Replay a sequence of `add_task` calls against a store. -/
def applyAdds (tasks : List Task) : List AddOp → List Task
  | [] => tasks
  | op :: ops => applyAdds (add_task tasks op.name op.duration op.tags op.dflt op.now) ops

/-- Embedding of the CLI countdown loop `for remaining in range(duration, 0, -1)`
in `run_timer` (src/task_timer.py line 289): the successive values bound to
`remaining`, i.e. `[duration, duration-1, ..., 1]`.  The value displayed at
an iteration depends only on the iteration index, never on the clock. -/
def countdownList : Nat → List Nat
  | 0 => []
  | n + 1 => (n + 1) :: countdownList n

/-- The colorama constants the countdown display picks from. -/
inductive Color
  | GREEN | YELLOW | RED | CYAN | BLUE | MAGENTA
deriving Repr, DecidableEq

/-- Embedding of the color choice in `run_timer` (src/task_timer.py lines
292-308): break timers pick CYAN / BLUE / MAGENTA and work timers pick
GREEN / YELLOW / RED, by comparing `remaining` against `duration * 0.5`
and `duration * 0.25`.  The Python floats `0.5` and `0.25` are the exact
rationals `1/2` and `1/4`. -/
def run_timer_time_color (is_break : Bool) (remaining duration : ℚ) : Color :=
  if is_break then
    if remaining > duration * (1 / 2) then Color.CYAN
    else if remaining > duration * (1 / 4) then Color.BLUE
    else Color.MAGENTA
  else
    if remaining > duration * (1 / 2) then Color.GREEN
    else if remaining > duration * (1 / 4) then Color.YELLOW
    else Color.RED

/-- The spec's three display bands. -/
inductive Band
  | HIGH | MEDIUM | LOW
deriving Repr, DecidableEq

/-- The band a color belongs to: the first color of each palette is the
HIGH band, the second MEDIUM, the third LOW. -/
def colorBand : Color → Band
  | Color.GREEN => Band.HIGH
  | Color.CYAN => Band.HIGH
  | Color.YELLOW => Band.MEDIUM
  | Color.BLUE => Band.MEDIUM
  | Color.RED => Band.LOW
  | Color.MAGENTA => Band.LOW

/-- State of the GUI countdown (src/task_timer_gui.py `run_timer`, lines
146-177): the captured `end_time`, the global `remaining` as last written
by `update_display`, and whether an `update_display` callback is still
scheduled (`after` pending, not cancelled and not run out). -/
structure GuiTimer where
  endTime : Int
  remaining : Int
  running : Bool
deriving Repr, DecidableEq

/-- One `update_display` execution at clock reading `now`: recomputes
`remaining = end_time - time.time()` from the captured deadline, and
reschedules itself only while that is positive.  A cancelled or finished
timer runs no callback, so nothing changes. -/
def GuiTimer.tick (s : GuiTimer) (now : Int) : GuiTimer :=
  if s.running then
    { s with remaining := s.endTime - now, running := s.endTime - now > 0 }
  else
    s

/-- Embedding of the GUI `run_timer` entry (src/task_timer_gui.py lines
146-177), at second granularity: captures
`end_time = time.time() + duration_minutes * 60` — here `durationSeconds`
is already the product — and immediately calls `update_display()`. -/
def run_timer_gui (durationSeconds : Int) (now : Int) : GuiTimer :=
  GuiTimer.tick { endTime := now + durationSeconds, remaining := durationSeconds, running := true } now

/-- Embedding of `pause_timer` (src/task_timer_gui.py lines 178-193): when
the targeted task is not completed, `after_cancel` stops the scheduled
callback, freezing the global `remaining` at its last written value; for a
completed task the handler does nothing. -/
def pause_timer (s : GuiTimer) (taskCompleted : Bool) : GuiTimer :=
  if taskCompleted then s else { s with running := false }

/-- Embedding of `resume_timer` (src/task_timer_gui.py lines 194-199): it
calls `run_timer(remaining / 60, ...)`, which multiplies by 60 again, so
the new deadline is `now + remaining` — the snapshotted remainder counted
afresh from the resume instant. -/
def resume_timer (s : GuiTimer) (now : Int) : GuiTimer :=
  run_timer_gui s.remaining now

/-- Modelled from the spec: `TaskManager.get_task` — the GUI imports a
`TaskManager` class from `task_timer` that is absent from src/; the spec
gives its lookup as `getTask(id) → Task | NotFound`. -/
def get_task (tasks : List Task) (task_id : Nat) : Option Task :=
  tasks.find? (fun t => t.id == task_id)

/-- What one GUI start attempt did. -/
inductive GuiStartOutcome
  | noTask
  | pausedIgnore
  | alreadyCompleted
  | startedTimer (durationMinutes : Int)
deriving Repr, DecidableEq

/-- Embedding of `TaskTimerApp.start_selected_task` (src/task_timer_gui.py
lines 113-131): a press while `paused == 1` returns at once; otherwise the
task is looked up and, when its `completed` flag is set, only the
"already completed" info box is shown — no countdown starts and the store
is returned untouched.  Only an incomplete task reaches `run_timer`. -/
def start_selected_task (tasks : List Task) (task_id : Nat) (paused : Bool) :
    GuiStartOutcome × List Task :=
  if paused then (GuiStartOutcome.pausedIgnore, tasks)
  else
    match get_task tasks task_id with
    | none => (GuiStartOutcome.noTask, tasks)
    | some task =>
      if task.completed then (GuiStartOutcome.alreadyCompleted, tasks)
      else (GuiStartOutcome.startedTimer task.duration, tasks)

/-- The headline numbers printed by `show_stats` (src/task_timer.py lines
406-426). -/
structure StatsSummary where
  total : Nat
  completed : Nat
  pending : Nat
  totalTime : Int
deriving Repr, DecidableEq

/-- Embedding of the summary part of `show_stats` with no filter:
`total = len(tasks)`, `completed = sum(1 for t if t.completed)`,
pending printed as `total - completed`, and
`total_time = sum(t.duration for t if t.completed)`. -/
def show_stats_summary (tasks : List Task) : StatsSummary :=
  let total := tasks.length
  let completed := (tasks.filter (fun t => t.completed)).length
  let total_time := ((tasks.filter (fun t => t.completed)).map (fun t => t.duration)).sum
  ⟨total, completed, total - completed, total_time⟩

/-- Embedding of Python `str.lower()` as character-wise lowercasing (the
tag labels the program manipulates are plain ASCII words, on which the two
agree). -/
def strLower (s : String) : String := String.mk (s.data.map Char.toLower)

/-- One bucket of the per-tag breakdown of `show_stats` (src/task_timer.py
lines 429-454): `{"total": _, "completed": _, "time": _}`. -/
structure TagStat where
  total : Nat
  completed : Nat
  time : Int
deriving Repr, DecidableEq

/-- The fresh bucket `{"total": 0, "completed": 0, "time": 0}`. -/
def emptyStat : TagStat := ⟨0, 0, 0⟩

/-- The three `+=` lines applied to a bucket for one tag occurrence of a
task with completion flag `c` and duration `d`. -/
def bumpStat (s : TagStat) (c : Bool) (d : Int) : TagStat :=
  ⟨s.total + 1, s.completed + (if c then 1 else 0), s.time + (if c then d else 0)⟩

/-- Python-dict update for one tag occurrence: missing keys are appended
at the end (insertion order), existing keys are bumped in place. -/
def updateTag : List (String × TagStat) → String → Bool → Int → List (String × TagStat)
  | [], tl, c, d => [(tl, bumpStat emptyStat c d)]
  | (k, s) :: rest, tl, c, d =>
    if k = tl then (k, bumpStat s c d) :: rest
    else (k, s) :: updateTag rest tl c d

/-- The inner loop of the breakdown: one task contributes one bucket update
per entry of its tag list, keyed by the lowercased tag. -/
def tag_stats_step (st : List (String × TagStat)) (t : Task) : List (String × TagStat) :=
  t.tags.foldl (fun acc tag => updateTag acc (strLower tag) t.completed t.duration) st

/-- Embedding of the `tag_stats` dict built by `show_stats` when no filter
is given (src/task_timer.py lines 430-442). -/
def tag_stats (tasks : List Task) : List (String × TagStat) :=
  tasks.foldl tag_stats_step []

/-- Dict lookup on the association-list model. -/
def lookupTag : List (String × TagStat) → String → Option TagStat
  | [], _ => none
  | (k, s) :: rest, tl => if k = tl then some s else lookupTag rest tl

/-- `n` bucket bumps at once, all with the same completion flag and
duration: the effect on one dict entry of the `n` occurrences of a tag in
a single task's tag list. -/
def addN (o : Option TagStat) (n : Nat) (c : Bool) (d : Int) : Option TagStat :=
  if n = 0 then o
  else some ⟨(o.getD emptyStat).total + n,
             (o.getD emptyStat).completed + (if c then n else 0),
             (o.getD emptyStat).time + (if c then (n : Int) * d else 0)⟩

/-- How often a task's tag list mentions the (lowercased) tag `tl`. -/
def tagOcc (t : Task) (tl : String) : Nat :=
  t.tags.countP (fun g => strLower g == tl)

/-- Occurrences of `tl` across a whole store — the value the breakdown
accumulates into a bucket's `total`. -/
def tagTotal (tasks : List Task) (tl : String) : Nat :=
  (tasks.map (fun t => tagOcc t tl)).sum

/-- Occurrences of `tl` within completed tasks — the bucket's
`completed`. -/
def tagCompleted (tasks : List Task) (tl : String) : Nat :=
  (tasks.map (fun t => if t.completed then tagOcc t tl else 0)).sum

/-- Duration-weighted occurrences of `tl` within completed tasks — the
bucket's `time`. -/
def tagTime (tasks : List Task) (tl : String) : Int :=
  (tasks.map (fun t => if t.completed then (tagOcc t tl : Int) * t.duration else 0)).sum

/-- The remainder formula the specification prescribes for a running
session: `max(0, deadline - now)`.  Kept separate so the source timers can
be compared against it. -/
def spec_remaining (deadline now : Int) : Int := max 0 (deadline - now)

/-- The two-task store of the spec's tag-breakdown example:
`[(dur 10, tags [a]), (dur 20, tags [a, b], completed)]`. -/
def exampleStore : List Task :=
  [ ⟨1, "t1", 10, false, 0, none, ["a"]⟩,
    ⟨2, "t2", 20, true, 0, some 5, ["a", "b"]⟩ ]

/-! ### Helper lemmas -/

/-- Replaying adds appends records whose ids continue counting up from the
current store length. -/
theorem map_id_applyAdds (ops : List AddOp) : ∀ (tasks : List Task),
    (applyAdds tasks ops).map Task.id =
      tasks.map Task.id ++ List.range' (tasks.length + 1) ops.length := by
  induction ops with
  | nil => intro tasks; simp [applyAdds]
  | cons op ops ih =>
    intro tasks
    rw [applyAdds, ih, List.length_cons, List.range'_succ]
    simp [add_task]

/-- Summing a function over the elements kept by a filter equals summing
the if-guarded function over the whole list. -/
theorem sum_filter_map (p : Task → Bool) (f : Task → Int) (l : List Task) :
    ((l.filter p).map f).sum = (l.map (fun t => if p t then f t else 0)).sum := by
  induction l with
  | nil => rfl
  | cons t l ih =>
    by_cases h : p t <;> simp [List.filter_cons, h, ih]

/-! ### The claims -/

/-- Claim C1 fails as stated:  The CLI `start_timer` never consults the
`completed` flag: on a store whose single task is already completed (its
`completed_at` being 100), `start_timer` enters the countdown anyway and,
when the countdown runs out at time 200, overwrites `completed_at` with
200 and saves the store — the second completion does not leave
`completedAt` at its first value. -/
theorem C1_counterexample :
    (start_timer [⟨1, "a", 25, true, 0, some 100, []⟩] 1 none false true false 200).workTimerRan
      = true ∧
    (start_timer [⟨1, "a", 25, true, 0, some 100, []⟩] 1 none false true false 200).saved
      = true ∧
    (start_timer [⟨1, "a", 25, true, 0, some 100, []⟩] 1 none false true false 200).tasks
      = [⟨1, "a", 25, true, 0, some 200, []⟩] ∧
    some (200 : Nat) ≠ some (100 : Nat) := by
  decide

/-- Claim C1, amended: only the GUI start path guards completed tasks — when
the looked-up task has its `completed` flag set, `start_selected_task`
reports it as already completed, starts no countdown and leaves the store
untouched; the CLI `start_timer` has no such guard and re-runs the
countdown, overwriting `completed_at` on completion. -/
theorem C1_gui_guard (tasks : List Task) (task_id : Nat) (t : Task)
    (hfind : get_task tasks task_id = some t) (hc : t.completed = true) :
    start_selected_task tasks task_id false = (GuiStartOutcome.alreadyCompleted, tasks) := by
  simp [start_selected_task, hfind, hc]

/-- Witness for `C1_gui_guard` at a one-task store whose task is
completed. -/
theorem C1_gui_guard_witness :
    get_task [⟨1, "a", 25, true, 0, some 100, []⟩] 1 = some ⟨1, "a", 25, true, 0, some 100, []⟩ ∧
    (⟨1, "a", 25, true, 0, some 100, []⟩ : Task).completed = true ∧
    start_selected_task [⟨1, "a", 25, true, 0, some 100, []⟩] 1 false =
      (GuiStartOutcome.alreadyCompleted, [⟨1, "a", 25, true, 0, some 100, []⟩]) :=
  ⟨by decide, by decide,
    C1_gui_guard [⟨1, "a", 25, true, 0, some 100, []⟩] 1 ⟨1, "a", 25, true, 0, some 100, []⟩
      (by decide) (by decide)⟩

/-- Claim C2 fails as stated:  `add_task` assigns `id = len(tasks) + 1`, not
`max existing id + 1`: after `add a; add b; delete 1; add c` the store has
length 1 before the last add, so `c` receives id 2 — a reused id that
collides with the surviving task's id, so the ids are not even unique. -/
theorem C2_counterexample :
    ((add_task (delete_task (add_task (add_task [] "a" (some 5) none 25 0)
        "b" (some 5) none 25 0) 1).1 "c" (some 5) none 25 0).map Task.id = [2, 2]) ∧
    ¬ ((add_task (delete_task (add_task (add_task [] "a" (some 5) none 25 0)
        "b" (some 5) none 25 0) 1).1 "c" (some 5) none 25 0).map Task.id).Nodup := by
  decide

/-- Claim C2, amended: `add_task` assigns `id = store length + 1`.  For every
sequence of adds on a store never touched by `delete`, this coincides with
max existing id + 1: starting from the empty store the assigned ids are
exactly 1, 2, ..., n, so they are unique and strictly increasing.  After a
delete, however, a freed id can be reused by a subsequent add and even
collide with a surviving id. -/
theorem C2_ids_without_delete (ops : List AddOp) :
    (applyAdds [] ops).map Task.id = List.range' 1 ops.length ∧
    ((applyAdds [] ops).map Task.id).Nodup := by
  have h := map_id_applyAdds ops []
  simp only [List.map_nil, List.nil_append, List.length_nil, Nat.zero_add] at h
  exact ⟨h, h ▸ List.nodup_range' 1 ops.length⟩

/-- Claim C3 fails as stated:  `add_task` performs no validation: with the
empty name and duration 0 (which is `<= 0`) the task is appended to the
store all the same — nothing fails and the store grows. -/
theorem C3_counterexample :
    ("" : String) = "" ∧ ((0 : Int) ≤ 0) ∧
    add_task [] "" (some 0) none 25 0 ≠ [] ∧
    (add_task [] "" (some 0) none 25 0).length = 1 := by
  decide

/-- Claim C3, amended: `add_task` rejects nothing.  Even when the name is empty
or the resolved duration is non-positive, the store grows by one and the
appended record carries exactly the invalid name and duration it was
given. -/
theorem C3_no_validation (tasks : List Task) (name : String) (duration : Option Int)
    (tags : Option (List String)) (dflt : Int) (now : Nat)
    (h : name = "" ∨ duration.getD dflt ≤ 0) :
    (add_task tasks name duration tags dflt now).length = tasks.length + 1 ∧
    (add_task tasks name duration tags dflt now).getLast? =
      some ⟨tasks.length + 1, name, duration.getD dflt, false, now, none, tags.getD []⟩ := by
  constructor
  · simp [add_task]
  · cases tags <;> simp [add_task, List.getLast?_concat, Option.getD]

/-- Witness for `C3_no_validation` at the empty name and duration 0. -/
theorem C3_no_validation_witness :
    (("" : String) = "" ∨ (Option.getD (some 0) 25 : Int) ≤ 0) ∧
    (add_task [] "" (some 0) none 25 0).length = 0 + 1 := by
  refine ⟨Or.inl rfl, ?_⟩
  have h := C3_no_validation [] "" (some 0) none 25 0 (Or.inl rfl)
  simpa using h.1

/-- Claim C9: a work countdown interrupted before completion
(`run_timer` returning `False`) leaves `start_timer` without any
side effect: the store is returned exactly as it was, nothing is saved,
the completion sound is never attempted and no break countdown runs —
for every store, task, break request and silent flag. -/
theorem C9_cancel_frame (tasks : List Task) (task_id : Nat) (t : Task)
    (break_duration : Option Int) (silent acceptBreak : Bool) (now : Nat)
    (hfind : find_task tasks task_id = some t) :
    start_timer tasks task_id break_duration silent false acceptBreak now =
      ⟨tasks, false, true, false, false⟩ := by
  simp [start_timer, hfind]

/-- Witness for `C9_cancel_frame` on a one-task store. -/
theorem C9_cancel_frame_witness :
    find_task [⟨1, "a", 25, false, 0, none, []⟩] 1 = some ⟨1, "a", 25, false, 0, none, []⟩ ∧
    start_timer [⟨1, "a", 25, false, 0, none, []⟩] 1 (some 5) false false true 300 =
      ⟨[⟨1, "a", 25, false, 0, none, []⟩], false, true, false, false⟩ :=
  ⟨by decide,
    C9_cancel_frame [⟨1, "a", 25, false, 0, none, []⟩] 1 ⟨1, "a", 25, false, 0, none, []⟩
      (some 5) false true 300 (by decide)⟩

/-- Claim C10: `delete_task` removes every record carrying the given id in its
single filter pass — the resulting store is exactly the original with all
records of that id dropped (so records with other ids survive unchanged,
in order), and a subsequent lookup of that id finds nothing.  This also
covers the NotFound branch, where the filter removes nothing. -/
theorem C10_delete_all (tasks : List Task) (task_id : Nat) :
    (delete_task tasks task_id).1 = tasks.filter (fun t => t.id != task_id) ∧
    find_task (delete_task tasks task_id).1 task_id = none ∧
    ∀ t ∈ tasks, t.id ≠ task_id → t ∈ (delete_task tasks task_id).1 := by
  have hfilter : (delete_task tasks task_id).1 = tasks.filter (fun t => t.id != task_id) := by
    by_cases h : tasks.any (fun t => t.id == task_id)
    · simp [delete_task, h]
    · simp only [List.any_eq_true, beq_iff_eq, not_exists, not_and] at h
      simp only [delete_task]
      rw [if_neg]
      · rw [List.filter_eq_self.mpr]
        intro t ht
        simpa using h t ht
      · simp only [List.any_eq_true, beq_iff_eq, not_exists, not_and]
        exact h
  refine ⟨hfilter, ?_, ?_⟩
  · rw [hfilter, find_task, List.find?_eq_none]
    intro t ht
    have := (List.mem_filter.mp ht).2
    simpa using this
  · intro t ht hne
    rw [hfilter, List.mem_filter]
    exact ⟨ht, by simpa using hne⟩

/-- Witness for `C10_delete_all` on a store holding two records with id 1
and one with id 2: one delete drops both id-1 records. -/
theorem C10_delete_all_witness :
    (delete_task [⟨1, "a", 5, false, 0, none, []⟩, ⟨1, "b", 6, false, 0, none, []⟩,
        ⟨2, "c", 7, false, 0, none, []⟩] 1).1 =
      List.filter (fun t => t.id != 1)
        [⟨1, "a", 5, false, 0, none, []⟩, ⟨1, "b", 6, false, 0, none, []⟩,
         ⟨2, "c", 7, false, 0, none, []⟩] ∧
    find_task (delete_task [⟨1, "a", 5, false, 0, none, []⟩, ⟨1, "b", 6, false, 0, none, []⟩,
        ⟨2, "c", 7, false, 0, none, []⟩] 1).1 1 = none :=
  ⟨(C10_delete_all [⟨1, "a", 5, false, 0, none, []⟩, ⟨1, "b", 6, false, 0, none, []⟩,
      ⟨2, "c", 7, false, 0, none, []⟩] 1).1,
   (C10_delete_all [⟨1, "a", 5, false, 0, none, []⟩, ⟨1, "b", 6, false, 0, none, []⟩,
      ⟨2, "c", 7, false, 0, none, []⟩] 1).2.1⟩

/-- Claim C4 fails as stated:  The CLI countdown is a decrementing loop: the
value bound at the second iteration of a 60-second countdown started at
time 0 is 59 whatever the clock says, while with the tick delayed to
time 11 the claim's formula `max(0, deadline - now)` gives 49.  The CLI
remainder is a per-tick counter, so delayed ticks do drift. -/
theorem C4_counterexample :
    (countdownList 60).get? 1 = some 59 ∧
    spec_remaining (0 + 60) 11 = 49 ∧
    (59 : Int) ≠ 49 := by
  decide

/-- Claim C4, amended: only the GUI timer derives the remainder from the
captured deadline and the current clock — every `update_display` run on a
live timer recomputes `remaining = end_time - now`, independent of how
many ticks fired before, matching `max(0, deadline - now)` whenever the
deadline has not passed; the CLI `run_timer` instead decrements a counter
once per iteration, so the value it shows after k iterations is
`duration - k` regardless of wall time. -/
theorem C4_gui_deadline (s : GuiTimer) (now : Int) (h : s.running = true) :
    (GuiTimer.tick s now).remaining = s.endTime - now ∧
    (0 ≤ s.endTime - now → (GuiTimer.tick s now).remaining = spec_remaining s.endTime now) := by
  constructor
  · simp [GuiTimer.tick, h]
  · intro hpos
    simp [GuiTimer.tick, h, spec_remaining]
    omega

/-- Witness for `C4_gui_deadline`: a 60-second GUI countdown started at
time 0, ticked at time 10. -/
theorem C4_gui_deadline_witness :
    (run_timer_gui 60 0).running = true ∧
    (GuiTimer.tick (run_timer_gui 60 0) 10).remaining = (run_timer_gui 60 0).endTime - 10 :=
  ⟨by decide, (C4_gui_deadline (run_timer_gui 60 0) 10 (by decide)).1⟩

/-- Claim C5: pausing a running GUI session freezes the snapshotted remainder —
a tick on the cancelled callback changes nothing, however much wall time
passes — and `resume_timer` recomputes the deadline as
`now + remaining`, so the first display after resume shows exactly the
pre-pause remainder.  In particular a 60-second session started at time 0,
ticked at 10 (remainder 50), paused, and resumed at time 510 after a
500-second gap shows 50 again. -/
theorem C5_pause_resume :
    (∀ (s : GuiTimer) (now₁ now₂ : Int), s.running = true →
      (GuiTimer.tick (pause_timer s false) now₁).remaining = s.remaining ∧
      (resume_timer (GuiTimer.tick (pause_timer s false) now₁) now₂).remaining = s.remaining) ∧
    (resume_timer (pause_timer (GuiTimer.tick (run_timer_gui 60 0) 10) false) 510).remaining
      = 50 := by
  constructor
  · intro s now₁ now₂ _
    constructor
    · simp [pause_timer, GuiTimer.tick]
    · simp [pause_timer, GuiTimer.tick, resume_timer, run_timer_gui]
  · decide

/-- Witness for `C5_pause_resume` on a freshly started 60-second
session. -/
theorem C5_pause_resume_witness :
    (run_timer_gui 60 0).running = true ∧
    (GuiTimer.tick (pause_timer (run_timer_gui 60 0) false) 300).remaining
      = (run_timer_gui 60 0).remaining :=
  ⟨by decide, (C5_pause_resume.1 (run_timer_gui 60 0) 300 510 (by decide)).1⟩

/-- Claim C8: the `show_stats` headline numbers are consistent for every store:
pending is printed as total minus completed, so completed + pending equals
the task count, and the total time is the sum of the durations of exactly
the completed tasks. -/
theorem C8_stats_consistent (tasks : List Task) :
    (show_stats_summary tasks).completed + (show_stats_summary tasks).pending
      = (show_stats_summary tasks).total ∧
    (show_stats_summary tasks).totalTime
      = (tasks.map (fun t => if t.completed then t.duration else 0)).sum := by
  constructor
  · have hle := List.length_filter_le (fun t => t.completed) tasks
    simp only [show_stats_summary]
    omega
  · simpa [show_stats_summary] using
      sum_filter_map (fun t => t.completed) (fun t => t.duration) tasks

/-- The two palettes of the countdown display pick the same band at the
same thresholds: the color reduces to an if-tree on the two comparisons,
independent of the timer kind. -/
theorem colorBand_run_timer (b : Bool) (r d : ℚ) :
    colorBand (run_timer_time_color b r d) =
      if r > d * (1 / 2) then Band.HIGH
      else if r > d * (1 / 4) then Band.MEDIUM
      else Band.LOW := by
  cases b <;> simp only [run_timer_time_color, Bool.false_eq_true, if_true, if_false] <;>
    split_ifs <;> rfl

/-- Claim C6: for every session with positive total and for both timer kinds,
the displayed band is HIGH exactly when the remaining fraction exceeds
1/2, MEDIUM exactly when it lies in (1/4, 1/2], and LOW exactly when it is
at most 1/4 — the comparisons in `run_timer` are strict at both
boundaries, so 50% and 25% themselves fall in the lower band; the spec's
four boundary probes at totalSeconds = 100 come out as stated for the
work and the break palette alike. -/
theorem C6_band_boundaries :
    (∀ (remaining total : ℚ) (is_break : Bool), 0 < total →
      ((colorBand (run_timer_time_color is_break remaining total) = Band.HIGH
          ↔ remaining / total > 1 / 2) ∧
       (colorBand (run_timer_time_color is_break remaining total) = Band.MEDIUM
          ↔ 1 / 4 < remaining / total ∧ remaining / total ≤ 1 / 2) ∧
       (colorBand (run_timer_time_color is_break remaining total) = Band.LOW
          ↔ remaining / total ≤ 1 / 4))) ∧
    (colorBand (run_timer_time_color false 51 100) = Band.HIGH ∧
     colorBand (run_timer_time_color true 51 100) = Band.HIGH ∧
     colorBand (run_timer_time_color false 50 100) = Band.MEDIUM ∧
     colorBand (run_timer_time_color true 50 100) = Band.MEDIUM ∧
     colorBand (run_timer_time_color false 26 100) = Band.MEDIUM ∧
     colorBand (run_timer_time_color true 26 100) = Band.MEDIUM ∧
     colorBand (run_timer_time_color false 25 100) = Band.LOW ∧
     colorBand (run_timer_time_color true 25 100) = Band.LOW) := by
  constructor
  · intro remaining total is_break ht
    have h2 : remaining / total > 1 / 2 ↔ remaining > total * (1 / 2) := by
      rw [gt_iff_lt, gt_iff_lt, lt_div_iff₀ ht, mul_comm]
    have h4 : remaining / total > 1 / 4 ↔ remaining > total * (1 / 4) := by
      rw [gt_iff_lt, gt_iff_lt, lt_div_iff₀ ht, mul_comm]
    have himp : remaining > total * (1 / 2) → remaining > total * (1 / 4) := by
      intro h
      nlinarith
    rw [colorBand_run_timer]
    by_cases hA : remaining > total * (1 / 2)
    · rw [if_pos hA]
      have hfrac2 : remaining / total > 1 / 2 := h2.mpr hA
      have hfrac4 : remaining / total > 1 / 4 := h4.mpr (himp hA)
      exact ⟨iff_of_true rfl hfrac2,
             iff_of_false (by simp) (fun hm => absurd hfrac2 (not_lt.mpr hm.2)),
             iff_of_false (by simp) (fun hl => absurd hfrac4 (not_lt.mpr hl))⟩
    · by_cases hB : remaining > total * (1 / 4)
      · rw [if_neg hA, if_pos hB]
        have hfrac4 : remaining / total > 1 / 4 := h4.mpr hB
        have hfrac2 : remaining / total ≤ 1 / 2 := not_lt.mp (fun hc => hA (h2.mp hc))
        exact ⟨iff_of_false (by simp) (fun hh => hA (h2.mp hh)),
               iff_of_true rfl ⟨hfrac4, hfrac2⟩,
               iff_of_false (by simp) (fun hl => absurd hfrac4 (not_lt.mpr hl))⟩
      · rw [if_neg hA, if_neg hB]
        have hfrac4 : remaining / total ≤ 1 / 4 := not_lt.mp (fun hc => hB (h4.mp hc))
        exact ⟨iff_of_false (by simp) (fun hh => hA (h2.mp hh)),
               iff_of_false (by simp) (fun hm => absurd hm.1 (not_lt.mpr hfrac4)),
               iff_of_true rfl hfrac4⟩
  · norm_num [run_timer_time_color, colorBand]

/-- Witness for `C6_band_boundaries` at totalSeconds = 100,
remainingSeconds = 51. -/
theorem C6_band_boundaries_witness :
    ((0 : ℚ) < 100) ∧
    (colorBand (run_timer_time_color false 51 100) = Band.HIGH
      ↔ (51 : ℚ) / 100 > 1 / 2) :=
  ⟨by decide, (C6_band_boundaries.1 51 100 false (by decide)).1⟩

/-- Looking up a key after one dict update: the updated key gets bumped
(from a fresh bucket when absent), every other key is untouched. -/
theorem lookupTag_updateTag (st : List (String × TagStat)) (tl tl' : String)
    (c : Bool) (d : Int) :
    lookupTag (updateTag st tl' c d) tl =
      if tl' = tl then some (bumpStat ((lookupTag st tl).getD emptyStat) c d)
      else lookupTag st tl := by
  induction st with
  | nil =>
    by_cases h : tl' = tl <;> simp [updateTag, lookupTag, h]
  | cons p rest ih =>
    obtain ⟨k, s⟩ := p
    by_cases hk : k = tl'
    · subst hk
      by_cases h : k = tl
      · subst h
        simp [updateTag, lookupTag]
      · simp [updateTag, lookupTag, h]
    · by_cases h : k = tl
      · subst h
        have hne : tl' ≠ k := fun e => hk e.symm
        simp [updateTag, lookupTag, hk, hne]
      · simp [updateTag, lookupTag, hk, h, ih]

/-- Bumping once and then `n` more times is bumping `n + 1` times. -/
theorem addN_bump (o : Option TagStat) (n : Nat) (c : Bool) (d : Int) :
    addN (some (bumpStat (o.getD emptyStat) c d)) n c d = addN o (n + 1) c d := by
  cases n with
  | zero =>
    cases c <;> simp [addN, bumpStat]
  | succ m =>
    have h1 : (m + 1 : Nat) ≠ 0 := Nat.succ_ne_zero m
    have h2 : (m + 1 + 1 : Nat) ≠ 0 := Nat.succ_ne_zero (m + 1)
    rw [addN, addN, if_neg h1, if_neg h2, Option.getD_some]
    simp only [Option.some.injEq, TagStat.mk.injEq, bumpStat]
    refine ⟨by omega, ?_, ?_⟩
    · cases c <;> simp <;> omega
    · cases c <;> simp <;> push_cast <;> ring

/-- Folding one task's tag list into the dict changes the entry of `tl` by
exactly as many bumps as the list mentions `tl` (lowercased). -/
theorem lookupTag_foldl_tags (tags : List String) (c : Bool) (d : Int) (tl : String) :
    ∀ st, lookupTag (tags.foldl (fun acc g => updateTag acc (strLower g) c d) st) tl =
      addN (lookupTag st tl) (tags.countP (fun g => strLower g == tl)) c d := by
  induction tags with
  | nil => intro st; simp [addN]
  | cons g gs ih =>
    intro st
    rw [List.foldl_cons, ih, lookupTag_updateTag, List.countP_cons]
    by_cases h : strLower g = tl
    · rw [if_pos h]
      simp only [h, beq_self_eq_true, if_pos]
      exact addN_bump (lookupTag st tl) _ c d
    · rw [if_neg h]
      simp [h]

/-- A store whose tasks never mention `tl` contributes nothing to the
completed count and time of its bucket either. -/
theorem tag_sums_zero (ts : List Task) (tl : String) (h : tagTotal ts tl = 0) :
    tagCompleted ts tl = 0 ∧ tagTime ts tl = 0 := by
  induction ts with
  | nil => simp [tagCompleted, tagTime]
  | cons t rest ih =>
    rw [tagTotal, List.map_cons, List.sum_cons] at h
    have hocc : tagOcc t tl = 0 := by omega
    have hrest : tagTotal rest tl = 0 := by rw [tagTotal]; omega
    obtain ⟨hc, ht⟩ := ih hrest
    constructor
    · rw [tagCompleted, List.map_cons, List.sum_cons, hocc]
      rw [tagCompleted] at hc
      simp [hc]
    · rw [tagTime, List.map_cons, List.sum_cons, hocc]
      rw [tagTime] at ht
      simp [ht]

/-- Master characterization of the breakdown dict: after folding a store
on top of any initial dict, the entry of `tl` is the initial entry bumped
by the store's occurrence counts — and is created only if the store
mentions `tl` at all. -/
theorem lookupTag_tag_stats_aux (tasks : List Task) (tl : String) :
    ∀ st, lookupTag (tasks.foldl tag_stats_step st) tl =
      if tagTotal tasks tl = 0 then lookupTag st tl
      else some ⟨((lookupTag st tl).getD emptyStat).total + tagTotal tasks tl,
                 ((lookupTag st tl).getD emptyStat).completed + tagCompleted tasks tl,
                 ((lookupTag st tl).getD emptyStat).time + tagTime tasks tl⟩ := by
  induction tasks with
  | nil => intro st; simp [tagTotal, tagCompleted, tagTime]
  | cons t ts ih =>
    intro st
    have hstep : lookupTag (tag_stats_step st t) tl
        = addN (lookupTag st tl) (tagOcc t tl) t.completed t.duration := by
      rw [tag_stats_step]
      exact lookupTag_foldl_tags t.tags t.completed t.duration tl st
    have htotc : tagTotal (t :: ts) tl = tagOcc t tl + tagTotal ts tl := by
      rw [tagTotal, List.map_cons, List.sum_cons]; rfl
    have hcompc : tagCompleted (t :: ts) tl
        = (if t.completed then tagOcc t tl else 0) + tagCompleted ts tl := by
      rw [tagCompleted, List.map_cons, List.sum_cons]; rfl
    have htimec : tagTime (t :: ts) tl
        = (if t.completed then (tagOcc t tl : Int) * t.duration else 0) + tagTime ts tl := by
      rw [tagTime, List.map_cons, List.sum_cons]; rfl
    rw [List.foldl_cons, ih (tag_stats_step st t), hstep, htotc, hcompc, htimec]
    by_cases hocc : tagOcc t tl = 0
    · rw [hocc, addN, if_pos rfl]
      simp
    · rw [addN, if_neg hocc]
      have hne2 : ¬(tagOcc t tl + tagTotal ts tl = 0) := by omega
      by_cases hrest : tagTotal ts tl = 0
      · obtain ⟨hc0, ht0⟩ := tag_sums_zero ts tl hrest
        rw [if_pos hrest, if_neg hne2, hrest, hc0, ht0]
        simp
      · rw [if_neg hrest, if_neg hne2]
        simp only [Option.getD_some, Option.some.injEq, TagStat.mk.injEq]
        refine ⟨by omega, by omega, by ring⟩

/-- With no repeated (lowercased) tag inside one task, the occurrence
count of a tag in that task is its membership indicator. -/
theorem tagOcc_nodup (t : Task) (tl : String) (h : (t.tags.map strLower).Nodup) :
    tagOcc t tl = if (t.tags.map strLower).contains tl then 1 else 0 := by
  have hmapped : tagOcc t tl = List.count tl (t.tags.map strLower) := by
    rw [tagOcc, List.count_eq_countP, List.countP_map]
    rfl
  by_cases hm : tl ∈ t.tags.map strLower
  · rw [hmapped, List.count_eq_one_of_mem h hm, if_pos (by simpa [List.contains, List.elem_iff] using hm)]
  · rw [hmapped, List.count_eq_zero_of_not_mem hm, if_neg (by simpa [List.contains, List.elem_iff] using hm)]

/-- Summing membership indicators counts the satisfying elements. -/
theorem sum_indicator_countP (p : Task → Bool) (l : List Task) :
    (l.map (fun t => if p t then (1 : Nat) else 0)).sum = l.countP p := by
  induction l with
  | nil => rfl
  | cons t rest ih =>
    rw [List.map_cons, List.sum_cons, List.countP_cons, ih]
    omega

/-- Claim C7: for every store whose tasks carry no duplicate (lowercased) tag —
the data model makes tag lists set-like — the breakdown built by
`show_stats` has, for every tag, a bucket exactly when some task bears the
tag, and that bucket reports the number of tasks bearing it
(case-insensitively), the number of completed ones among them, and the
durations summed over those completed ones; since a task is counted in
precisely the buckets of its own tags, a task with N tags contributes to
exactly N buckets.  On the spec's example store the bucket of `a` is
(2, 1, 20) and the bucket of `b` is (1, 1, 20). -/
theorem C7_tag_breakdown :
    (∀ (tasks : List Task) (tl : String), (∀ t ∈ tasks, (t.tags.map strLower).Nodup) →
      lookupTag (tag_stats tasks) tl =
        if tasks.countP (fun t => (t.tags.map strLower).contains tl) = 0 then none
        else some ⟨tasks.countP (fun t => (t.tags.map strLower).contains tl),
                   tasks.countP (fun t => t.completed && (t.tags.map strLower).contains tl),
                   (tasks.map (fun t =>
                     if t.completed && (t.tags.map strLower).contains tl
                     then t.duration else 0)).sum⟩) ∧
    (lookupTag (tag_stats exampleStore) "a" = some ⟨2, 1, 20⟩ ∧
     lookupTag (tag_stats exampleStore) "b" = some ⟨1, 1, 20⟩) := by
  constructor
  · intro tasks tl h
    have htot : tagTotal tasks tl
        = tasks.countP (fun t => (t.tags.map strLower).contains tl) := by
      rw [tagTotal,
        List.map_congr_left (fun t ht => tagOcc_nodup t tl (h t ht)),
        sum_indicator_countP]
    have hcomp : tagCompleted tasks tl
        = tasks.countP (fun t => t.completed && (t.tags.map strLower).contains tl) := by
      rw [tagCompleted, ← sum_indicator_countP]
      refine congrArg List.sum (List.map_congr_left fun t ht => ?_)
      rw [tagOcc_nodup t tl (h t ht)]
      cases hc : t.completed <;>
        by_cases hm : (t.tags.map strLower).contains tl <;> simp [hc, hm]
    have htime : tagTime tasks tl
        = (tasks.map (fun t =>
            if t.completed && (t.tags.map strLower).contains tl
            then t.duration else 0)).sum := by
      rw [tagTime]
      refine congrArg List.sum (List.map_congr_left fun t ht => ?_)
      rw [tagOcc_nodup t tl (h t ht)]
      cases hc : t.completed <;>
        by_cases hm : (t.tags.map strLower).contains tl <;> simp [hc, hm]
    rw [tag_stats, lookupTag_tag_stats_aux tasks tl [], htot, hcomp, htime]
    by_cases h0 : tasks.countP (fun t => (t.tags.map strLower).contains tl) = 0
    · rw [if_pos h0, if_pos h0]
      rfl
    · rw [if_neg h0, if_neg h0]
      simp [lookupTag, emptyStat]
  · constructor <;> decide

/-- Witness for `C7_tag_breakdown` on the spec's example store, at the
tag `a`. -/
theorem C7_tag_breakdown_witness :
    (∀ t ∈ exampleStore, (t.tags.map strLower).Nodup) ∧
    lookupTag (tag_stats exampleStore) "a" =
      (if exampleStore.countP (fun t => (t.tags.map strLower).contains "a") = 0 then none
       else some ⟨exampleStore.countP (fun t => (t.tags.map strLower).contains "a"),
                  exampleStore.countP (fun t =>
                    t.completed && (t.tags.map strLower).contains "a"),
                  (exampleStore.map (fun t =>
                    if t.completed && (t.tags.map strLower).contains "a"
                    then t.duration else 0)).sum⟩) :=
  ⟨by decide, C7_tag_breakdown.1 exampleStore "a" (by decide)⟩

end TaskTimer
